import Mathlib

/-!
Verification development for the nerimity-server post/feed service layer.

The definitions below are a shallow embedding of the TypeScript service
functions in `src/unnamed/part_000` (the Post service: `fetchPosts`,
`fetchLikedPosts`, `getFeed`, `fetchPost`, `constructBlockedPostTemplate`,
`likePost`, `editPost`, `getPostLikes`, `deletePost`, `votePostPoll`,
`createPostNotification`) and of the account-content deletion sweep in
`src/src/index.ts` (`scheduleDeleteAccountContent`).

The Prisma store is embedded as an explicit state `DB` holding the row lists
of each table; each service function becomes a pure function from `DB`
(plus its arguments) to a result and a successor `DB`.  String identifiers
are embedded as `Nat`, Prisma `DateTime` columns as `Nat` timestamps, and
Prisma nullable columns as `Option`.  Calls that Prisma can reject
(`.catch(() => {})` in the source) take an extra `Bool` oracle describing
whether the storage write succeeded.  External collaborators that are not
part of the provided sources (the CDN `deleteFile`, the view-count cache
`addPostViewsToCache`, the bad-word filter) are either omitted — they do not
touch the embedded state — or modelled from the spec where noted.
-/

namespace Nerimity

/-- Friend-relationship status enum (`FriendStatus`); only `blocked` is
consulted by the embedded code. -/
inductive FriendStatus : Type where
  | sent : FriendStatus
  | pending : FriendStatus
  | friends : FriendStatus
  | blocked : FriendStatus
deriving Repr, DecidableEq

/-- A `Friend` row: a directed edge owned by `userId` pointing at
`recipientId`, carrying a status.  A block by A of B is the row
`{userId := A, recipientId := B, status := blocked}`. -/
structure Friend where
  userId : Nat
  recipientId : Nat
  status : FriendStatus
deriving Repr, DecidableEq

/-- A `Follower` row: `followedById` follows `followedToId`. -/
structure Follow where
  followedById : Nat
  followedToId : Nat
deriving Repr, DecidableEq

/-- A `Post` row with the columns the embedded functions read or write.
`deleted` is the nullable soft-delete flag (`null` or `true` in Prisma),
`estimateLikes` the mutable approximate like counter. -/
structure Post where
  id : Nat
  createdById : Nat
  createdAt : Nat
  content : Option String := none
  commentToId : Option Nat := none
  quotedPostId : Option Nat := none
  deleted : Option Bool := none
  estimateLikes : Int := 0
deriving Repr, DecidableEq

/-- A `PostLike` row. -/
structure PostLike where
  id : Nat
  likedById : Nat
  postId : Nat
  createdAt : Nat
deriving Repr, DecidableEq

/-- A `PostPoll` row: each poll belongs to one post. -/
structure PostPoll where
  id : Nat
  postId : Nat
deriving Repr, DecidableEq

/-- A `PostPollChoice` row: each choice belongs to one poll. -/
structure PostPollChoice where
  id : Nat
  pollId : Nat
  content : String := ""
deriving Repr, DecidableEq

/-- A `PostPollVotedUser` row: one vote of `userId` in `pollId` for
`pollChoiceId`. -/
structure PostPollVotedUser where
  id : Nat
  userId : Nat
  pollId : Nat
  pollChoiceId : Nat
deriving Repr, DecidableEq

/-- An `Attachment` row; `postId` is nullable because attachments can also
hang off messages. -/
structure Attachment where
  id : Nat
  postId : Option Nat := none
  path : String := ""
deriving Repr, DecidableEq

/-- The `PostNotificationType` enum (`LIKED = 0`, `REPLIED = 1`,
`FOLLOWED = 2`). -/
inductive PostNotificationType : Type where
  | liked : PostNotificationType
  | replied : PostNotificationType
  | followed : PostNotificationType
deriving Repr, DecidableEq

/-- A `PostNotification` row keyed by the (actor, recipient, type, subject)
tuple. -/
structure PostNotification where
  id : Nat
  byId : Nat
  toId : Nat
  ntype : PostNotificationType
  postId : Option Nat
deriving Repr, DecidableEq

/-- An `Account` row holding the recipient-side unread notification
counter. -/
structure Account where
  userId : Nat
  postNotificationCount : Nat := 0
deriving Repr, DecidableEq

/-- A `User` row with the flags the deletion sweep consults:
`hasApplication` embeds `application != null` (bot users) and
`scheduledForContentDeletion` embeds the non-null
`scheduledForContentDeletion` relation. -/
structure User where
  id : Nat
  hasApplication : Bool := false
  scheduledForContentDeletion : Bool := false
deriving Repr, DecidableEq

/-- The embedded persistent store: one list of rows per Prisma table used
by the embedded functions.  The `Message` table of the sweep is omitted:
no claim and no embedded post-side effect reads or writes it. -/
structure DB where
  posts : List Post := []
  postLikes : List PostLike := []
  postPolls : List PostPoll := []
  pollChoices : List PostPollChoice := []
  pollVotes : List PostPollVotedUser := []
  attachments : List Attachment := []
  announcementPosts : List Nat := []
  postNotifications : List PostNotification := []
  accounts : List Account := []
  friends : List Friend := []
  follows : List Follow := []
  users : List User := []
deriving Repr, DecidableEq

/-- Insert `x` into a list held in descending `key` order, keeping the
descending order (the embedding of Prisma `orderBy: desc`). -/
def insertKeyDesc (key : α → Nat) (x : α) : List α → List α
  | [] => [x]
  | y :: l => if key x ≤ key y then y :: insertKeyDesc key x l else x :: y :: l

/-- Sort a list into descending `key` order (the embedding of Prisma
`orderBy: { createdAt: 'desc' }`; insertion sort keeps earlier rows first
on ties). -/
def sortKeyDesc (key : α → Nat) : List α → List α
  | [] => []
  | x :: l => insertKeyDesc key x (sortKeyDesc key l)

/-- Does `blocker` have a BLOCKED friend row pointing at `target`?  This is
the row shape Prisma matches with
`friends: { none: { status: BLOCKED, recipientId: … } }`. -/
def hasBlockedRow (s : DB) (blocker target : Nat) : Bool :=
  s.friends.any fun f =>
    decide (f.userId = blocker) && decide (f.recipientId = target) &&
      decide (f.status = FriendStatus.blocked)

/-- Modelled from the spec: `isUserBlocked` lives in the User service,
which is not among the provided sources.  Spec §4.2 defines the block gate
bidirectionally: a user is blocked relative to the requester when either
the requester blocked them or they blocked the requester. -/
def isUserBlocked (s : DB) (requesterId targetId : Nat) : Bool :=
  hasBlockedRow s requesterId targetId || hasBlockedRow s targetId requesterId

/-- Modelled from the spec: `getBlockedUserIds` lives in the User service,
which is not among the provided sources.  Spec §4.2:
`blockedSubset(authors, viewer)` returns the subset of the given users that
are blocked relative to the requester (either direction). -/
def getBlockedUserIds (s : DB) (userIds : List Nat) (requesterId : Nat) : List Nat :=
  userIds.filter fun uid => isUserBlocked s requesterId uid

/-- Options record of `fetchPosts` (`FetchPostsOpts`).  The pass-through
extension points `where`, `additionalInclude`, `orderBy`, `skip` and
`cursor` are not embedded: the claims concern the paginator's own
predicate, its default `createdAt` descending ordering and its limit
clamping, and none of the referenced call sites is modelled as supplying
them. -/
structure FetchPostsOpts where
  userId : Option Nat := none
  postId : Option Nat := none
  requesterUserId : Nat
  withReplies : Bool := false
  bypassBlocked : Bool := false
  hideIfBlockedByMe : Bool := false
  limit : Option Nat := none
  afterId : Option Nat := none
  beforeId : Option Nat := none
deriving Repr, DecidableEq

/-- The `where` object built by `fetchPosts`.  Object-spread order matters:
a `postId` (comment listing) overrides the `commentToId: null` entry that
`!withReplies` would add.  The block conditions are on the author
(`createdBy`): the `friends … none` entry always excludes authors who
blocked the requester; the `recipientFriends … none` entry, present only
when `hideIfBlockedByMe` is set, also excludes authors the requester
blocked.  `deleted: null` is always required. -/
def postWhere (s : DB) (opts : FetchPostsOpts) (p : Post) : Bool :=
  (match opts.afterId with | some a => decide (p.id < a) | none => true) &&
  (match opts.beforeId with | some b => decide (b < p.id) | none => true) &&
  (match opts.userId with | some u => decide (p.createdById = u) | none => true) &&
  (match opts.postId with
   | some pid => decide (p.commentToId = some pid)
   | none => if opts.withReplies then true else decide (p.commentToId = none)) &&
  (if opts.bypassBlocked then true
   else
     (if opts.hideIfBlockedByMe
      then !(hasBlockedRow s opts.requesterUserId p.createdById)
      else true) &&
     !(hasBlockedRow s p.createdById opts.requesterUserId)) &&
  decide (p.deleted = none)

/-- The `take` clamp `opts.limit ? (opts.limit > 30 ? 30 : opts.limit) : 30`
shared by `fetchPosts` and `getFeed`.  A missing limit — and, through
JavaScript falsiness, a zero limit — defaults to 30. -/
def clampLimit (limit : Option Nat) : Nat :=
  match limit with
  | none => 30
  | some l => if l = 0 then 30 else if 30 < l then 30 else l

/-- `fetchPosts`: filter with the built `where`, order by `createdAt`
descending, take the clamped limit, and return the page reversed
(oldest-first).  The `updateViews` side effect targets the external view
cache only and does not touch the embedded state. -/
def fetchPosts (s : DB) (opts : FetchPostsOpts) : List Post :=
  ((sortKeyDesc (fun p => p.createdAt) (s.posts.filter (postWhere s opts))).take
    (clampLimit opts.limit)).reverse

/-- Options record of `getFeed` (`GetFeedOpts`). -/
structure GetFeedOpts where
  userId : Nat
  afterId : Option Nat := none
  beforeId : Option Nat := none
  limit : Option Nat := none
deriving Repr, DecidableEq

/-- The `where` object of `getFeed`: cursor bounds, top-level posts only,
not deleted, and author is the requester or followed by the requester.
Note: `getFeed` builds no block condition at all. -/
def feedWhere (s : DB) (opts : GetFeedOpts) (p : Post) : Bool :=
  (match opts.afterId with | some a => decide (p.id < a) | none => true) &&
  (match opts.beforeId with | some b => decide (b < p.id) | none => true) &&
  decide (p.commentToId = none) &&
  decide (p.deleted = none) &&
  (decide (p.createdById = opts.userId) ||
    s.follows.any fun f =>
      decide (f.followedToId = p.createdById) && decide (f.followedById = opts.userId))

/-- `getFeed`: filter, order by `createdAt` descending, take the clamped
limit.  Unlike `fetchPosts`, the result is returned as-is — there is no
`.reverse()` in the source. -/
def getFeed (s : DB) (opts : GetFeedOpts) : List Post :=
  (sortKeyDesc (fun p => p.createdAt) (s.posts.filter (feedWhere s opts))).take
    (clampLimit opts.limit)

/-- Options record of `fetchLikedPosts` (`fetchLinkedPostsOpts`); note it
has no limit field. -/
structure FetchLikedPostsOpts where
  userId : Nat
  requesterUserId : Nat
  bypassBlocked : Bool := false
deriving Repr, DecidableEq

/-- The like rows selected by `fetchLikedPosts`: likes of `opts.userId`
whose related post exists and (unless bypassed) whose author has not
blocked the requester, ordered by the like's `createdAt` descending, with a
fixed `take: 50`. -/
def likedPostsSelection (s : DB) (opts : FetchLikedPostsOpts) : List PostLike :=
  (sortKeyDesc (fun l => l.createdAt)
    (s.postLikes.filter fun l =>
      decide (l.likedById = opts.userId) &&
        s.posts.any fun p =>
          decide (p.id = l.postId) &&
            (opts.bypassBlocked || !(hasBlockedRow s p.createdById opts.requesterUserId)))).take 50

/-- `fetchLikedPosts`: map the selected like rows to their posts and
reverse the page. -/
def fetchLikedPosts (s : DB) (opts : FetchLikedPostsOpts) : List Post :=
  ((likedPostsSelection s opts).filterMap fun l =>
    s.posts.find? fun p => decide (p.id = l.postId)).reverse

/-- The fields of one assembled post record as produced by
`constructInclude` / `constructBlockedPostTemplate`.  Fields that the
blocked-post template leaves out entirely (`content`, the like count, the
attachment list, the poll) are `Option`s with `none` meaning the field is
absent from the record; `block` is the `block: true` marker, absent
(`false`) on fully assembled posts. -/
structure PostCore where
  id : Nat
  createdById : Nat
  commentToId : Option Nat
  quotedPostId : Option Nat
  content : Option String
  likeCount : Option Nat
  attachments : Option (List Nat)
  poll : Option Nat
  block : Bool
deriving Repr, DecidableEq

/-- An assembled post record together with its (optional) loaded
`commentTo` parent record: `leaf` has no parent loaded, `node` carries the
parent record. -/
inductive PostTree : Type where
  | leaf : PostCore → PostTree
  | node : PostCore → PostTree → PostTree
deriving Repr, DecidableEq

/-- The record's own fields. -/
def PostTree.core : PostTree → PostCore
  | .leaf c => c
  | .node c _ => c

/-- The record's loaded `commentTo` parent, if any. -/
def PostTree.commentTo : PostTree → Option PostTree
  | .leaf _ => none
  | .node _ t => some t

/-- The `commentTo` chain of a record, own fields first. -/
def PostTree.chain : PostTree → List PostCore
  | .leaf c => [c]
  | .node c t => c :: t.chain

/-- One fully assembled record for post row `p` (the parts of
`constructInclude` the claims observe): content, derived like count,
attachment ids and poll id are all present. -/
def assembleCore (s : DB) (p : Post) : PostCore :=
  { id := p.id
    createdById := p.createdById
    commentToId := p.commentToId
    quotedPostId := p.quotedPostId
    content := p.content
    likeCount := some (s.postLikes.countP fun l => decide (l.postId = p.id))
    attachments := some ((s.attachments.filter fun a => decide (a.postId = some p.id)).map
      fun a => a.id)
    poll := (s.postPolls.find? fun pl => decide (pl.postId = p.id)).map fun pl => pl.id
    block := false }

/-- Assemble the record for `p` with its `commentTo` parent loaded one
level deep, mirroring `constructInclude`'s `continueIter = false` on the
nested include (the parent record carries no grandparent). -/
def assemblePostTree (s : DB) (p : Post) : PostTree :=
  match p.commentToId with
  | none => .leaf (assembleCore s p)
  | some cid =>
    match s.posts.find? (fun q => decide (q.id = cid)) with
    | none => .leaf (assembleCore s p)
    | some q => .node (assembleCore s p) (.leaf (assembleCore s q))

/-- The minimal placeholder the blocked-post template keeps for one record:
identifier, parent link, author reference and quoted-post identifier
survive, `block` is set, everything else is absent. -/
def blockedPlaceholderCore (c : PostCore) : PostCore :=
  { id := c.id
    createdById := c.createdById
    commentToId := c.commentToId
    quotedPostId := c.quotedPostId
    content := none
    likeCount := none
    attachments := none
    poll := none
    block := true }

/-- `constructBlockedPostTemplate`: replace the record by its placeholder;
if a parent record is loaded, blocking was not bypassed and the parent's
author is blocked relative to the requester, recurse into the parent,
otherwise pass the parent through unredacted. -/
def constructBlockedPostTemplate (s : DB) (requesterUserId : Nat) (bypassBlocked : Bool) :
    PostTree → PostTree
  | .leaf c => .leaf (blockedPlaceholderCore c)
  | .node c ct =>
    if !bypassBlocked && isUserBlocked s requesterUserId ct.core.createdById then
      .node (blockedPlaceholderCore c) (constructBlockedPostTemplate s requesterUserId bypassBlocked ct)
    else
      .node (blockedPlaceholderCore c) ct

/-- Options record of `fetchPost` (`FetchPostOpts`). -/
structure FetchPostOpts where
  postId : Nat
  requesterUserId : Nat
  bypassBlocked : Bool := false
deriving Repr, DecidableEq

/-- `fetchPost`: look the post up by id with no `deleted` filter; when
blocking is not bypassed and the author is blocked relative to the
requester, substitute the blocked-post template, otherwise return the full
record. -/
def fetchPost (s : DB) (opts : FetchPostOpts) : Option PostTree :=
  match s.posts.find? (fun p => decide (p.id = opts.postId)) with
  | none => none
  | some post =>
    if !opts.bypassBlocked && isUserBlocked s opts.requesterUserId post.createdById then
      some (constructBlockedPostTemplate s opts.requesterUserId opts.bypassBlocked
        (assemblePostTree s post))
    else some (assemblePostTree s post)

/-- Does user `uid` have an `Account` row? -/
def accountExists (s : DB) (uid : Nat) : Bool :=
  s.accounts.any fun a => decide (a.userId = uid)

/-- Does user `uid` exist with `application != null`? -/
def userHasApplication (s : DB) (uid : Nat) : Bool :=
  match s.users.find? (fun u => decide (u.id = uid)) with
  | some u => u.hasApplication
  | none => false

/-- Is user `uid` marked `scheduledForContentDeletion`? -/
def userScheduledForContentDeletion (s : DB) (uid : Nat) : Bool :=
  match s.users.find? (fun u => decide (u.id = uid)) with
  | some u => u.scheduledForContentDeletion
  | none => false

/-- Arguments of `createPostNotification` (`CreatePostNotificationProps`). -/
structure NotifyOpts where
  toId : Option Nat := none
  byId : Nat
  postId : Option Nat := none
  ntype : PostNotificationType
deriving Repr, DecidableEq

/-- The subject-post lookup `prisma.post.findFirst({ where: { id: opts.postId } })`.
When `opts.postId` is absent Prisma drops the undefined filter and the
query returns the first post. -/
def findSubjectPost (posts : List Post) (postId : Option Nat) : Option Post :=
  match postId with
  | some pid => posts.find? fun p => decide (p.id = pid)
  | none => posts.head?

/-- Recipient resolution of `createPostNotification`: for `liked` and
`replied` the subject post must exist (else the call returns early); for
`replied` the recipient is then re-resolved to the author of the subject's
`commentTo` parent (absent parent means no recipient); for other types the
explicitly supplied `toId` is used.  `none` means the call creates
nothing. -/
def resolveToId (posts : List Post) (opts : NotifyOpts) : Option Nat :=
  if opts.ntype = PostNotificationType.liked ∨ opts.ntype = PostNotificationType.replied then
    match findSubjectPost posts opts.postId with
    | none => none
    | some p =>
      if opts.ntype = PostNotificationType.replied then
        match findSubjectPost posts opts.postId with
        | none => none
        | some p2 =>
          match p2.commentToId with
          | none => none
          | some cid => (posts.find? fun q => decide (q.id = cid)).map fun q => q.createdById
      else some p.createdById
  else opts.toId

/-- Does notification row `n` match the dedup tuple (actor `opts.byId`,
recipient `t`, `opts.ntype`, subject `opts.postId`)? -/
def notifMatches (opts : NotifyOpts) (t : Nat) (n : PostNotification) : Bool :=
  decide (n.byId = opts.byId) && decide (n.toId = t) &&
    decide (n.ntype = opts.ntype) && decide (n.postId = opts.postId)

/-- `createPostNotification`: resolve the recipient (early return when it
is absent), skip self-notification, skip when a row with the same tuple
exists, then atomically insert the row and increment the recipient's
account counter.  The `$transaction` is wrapped in `.catch(() => {})`: if
the account row is missing the counter update fails and the whole
transaction — row insert included — is rolled back, leaving the state
unchanged. -/
def createPostNotification (s : DB) (opts : NotifyOpts) (newId : Nat) : DB :=
  match resolveToId s.posts opts with
  | none => s
  | some t =>
    if t = opts.byId then s
    else if s.postNotifications.any (notifMatches opts t) then s
    else if accountExists s t then
      { s with
        postNotifications :=
          { id := newId, byId := opts.byId, toId := t, ntype := opts.ntype,
            postId := opts.postId } :: s.postNotifications
        accounts := s.accounts.map fun a =>
          if a.userId = t then { a with postNotificationCount := a.postNotificationCount + 1 }
          else a }
    else s

/-- `likePost`: three precondition reads (post exists and is not deleted;
no existing like by this user; author not blocked relative to the user),
then an `estimateLikes` increment, then the like-row insert, which carries
`.catch(() => {})` — embedded by the `insertOk` oracle.  A failed insert
returns the transient error after the increment has already been applied
(the two writes are not in one transaction).  On success the post is
re-fetched and a `LIKED` notification is created. -/
def likePost (s : DB) (userId postId : Nat) (insertOk : Bool)
    (newLikeId notifId now : Nat) : (Option PostTree × Option String) × DB :=
  match s.posts.find? (fun p => decide (p.deleted = none) && decide (p.id = postId)) with
  | none => ((none, some "Post not found"), s)
  | some post =>
    if s.postLikes.any (fun l => decide (l.likedById = userId) && decide (l.postId = postId)) then
      ((none, some "You have already liked this post!"), s)
    else if !(getBlockedUserIds s [post.createdById] userId).isEmpty then
      ((none, some "You have been blocked by this user!"), s)
    else
      let s1 : DB :=
        { s with posts := s.posts.map fun p =>
            if p.id = postId then { p with estimateLikes := p.estimateLikes + 1 } else p }
      if !insertOk then ((none, some "Something went wrong! Try again later."), s1)
      else
        let s2 : DB :=
          { s1 with postLikes :=
              { id := newLikeId, likedById := userId, postId := postId, createdAt := now } ::
                s1.postLikes }
        let newPost := fetchPost s2 { postId := postId, requesterUserId := userId }
        let s3 := createPostNotification s2
          { byId := userId, postId := some postId, ntype := PostNotificationType.liked } notifId
        ((newPost, none), s3)

/-- Modelled from the spec: the bad-word filter `replaceBadWords` of
`common/badWords` is not among the provided sources and no claim depends
on its behaviour; it is embedded as the identity on strings. -/
def replaceBadWords (c : String) : String := c

/-- `editPost`: the post must exist, belong to the editor and not be
deleted; the update itself carries `.catch(() => {})`, embedded by the
`updateOk` oracle (`editedAt` is not embedded: no claim reads it). -/
def editPost (s : DB) (editById postId : Nat) (content : String) (updateOk : Bool) :
    (Option PostTree × Option String) × DB :=
  match s.posts.find? (fun p =>
      decide (p.createdById = editById) && decide (p.deleted = none) &&
        decide (p.id = postId)) with
  | none => ((none, some "Post not found"), s)
  | some _ =>
    if !updateOk then ((none, some "Something went wrong. Try again later."), s)
    else
      let s1 : DB :=
        { s with posts := s.posts.map fun p =>
            if p.id = postId then { p with content := some (replaceBadWords content.trim) }
            else p }
      (((s1.posts.find? fun p => decide (p.id = postId)).map (assemblePostTree s1), none), s1)

/-- `getPostLikes`: the post must exist and not be deleted; returns the
like rows ordered newest-first. -/
def getPostLikes (s : DB) (postId : Nat) : Option (List PostLike) × Option String :=
  match s.posts.find? (fun p => decide (p.deleted = none) && decide (p.id = postId)) with
  | none => (none, some "Post not found")
  | some _ =>
    (some (sortKeyDesc (fun l => l.createdAt)
      (s.postLikes.filter fun l => decide (l.postId = postId))), none)

/-- `deletePost`: the post must exist and belong to the caller; then one
transaction nulls the content, sets the soft-delete flag, zeroes
`estimateLikes` and deletes the like, poll, attachment and announcement
rows of the post.  The CDN `deleteFile` call is external and not
embedded. -/
def deletePost (s : DB) (postId userId : Nat) : (Option Bool × Option String) × DB :=
  match s.posts.find? (fun p => decide (p.id = postId) && decide (p.createdById = userId)) with
  | none => ((none, some "Post does not exist!"), s)
  | some _ =>
    ((some true, none),
      { s with
        posts := s.posts.map fun p =>
          if p.id = postId then
            { p with content := none, deleted := some true, estimateLikes := 0 }
          else p
        postLikes := s.postLikes.filter fun l => decide (l.postId ≠ postId)
        postPolls := s.postPolls.filter fun pl => decide (pl.postId ≠ postId)
        attachments := s.attachments.filter fun a => decide (a.postId ≠ some postId)
        announcementPosts := s.announcementPosts.filter fun x => decide (x ≠ postId) })

/-- The post ids one sweep pass selects: not yet deleted, author scheduled
for content deletion, ordered by `createdAt` descending, at most 1000. -/
def sweptPostIds (s : DB) : List Nat :=
  (((sortKeyDesc (fun p => p.createdAt)
      (s.posts.filter fun p =>
        decide (p.deleted = none) &&
          userScheduledForContentDeletion s p.createdById))).take 1000).map fun p => p.id

/-- One pass of the `scheduleDeleteAccountContent` interval job, post side:
delete up to 1000 like rows of users with neither account nor application;
then, for up to 1000 posts of users scheduled for content deletion, one
transaction nulls the content and sets the soft-delete flag — note it does
not touch `estimateLikes` — and deletes the like, poll and attachment rows
of those posts (announcement rows are not touched either).  The message
side of the job only reads and writes the `Message` table, which is not
embedded. -/
def scheduleDeleteAccountContentTick (s : DB) : DB :=
  let orphanLikeIds :=
    ((s.postLikes.filter fun l =>
        !(accountExists s l.likedById) && !(userHasApplication s l.likedById)).take 1000).map
      fun l => l.id
  let postLikes1 :=
    if orphanLikeIds.isEmpty then s.postLikes
    else s.postLikes.filter fun l => decide (l.id ∉ orphanLikeIds)
  let pids := sweptPostIds s
  if pids.isEmpty then { s with postLikes := postLikes1 }
  else
    { s with
      posts := s.posts.map fun p =>
        if p.id ∈ pids then { p with content := none, deleted := some true } else p
      postLikes := postLikes1.filter fun l => decide (l.postId ∉ pids)
      postPolls := s.postPolls.filter fun pl => decide (pl.postId ∉ pids)
      attachments := s.attachments.filter fun a =>
        match a.postId with
        | some pid => decide (pid ∉ pids)
        | none => true }

/-- The author of the post a poll belongs to, as the singleton list
`votePostPoll` feeds to the block gate (empty when the post row is
absent, which referential integrity rules out in the real store). -/
def pollPostAuthorIds (s : DB) (poll : PostPoll) : List Nat :=
  match s.posts.find? (fun p => decide (p.id = poll.postId)) with
  | some p => [p.createdById]
  | none => []

/-- `votePostPoll`: four precondition reads in order — the poll must exist
for the given post, the requester must not be blocked relative to the
post's author, the choice must belong to the poll (surfaced with the same
"Poll not found." message), and the requester must not have voted in this
poll — then the single vote-row insert. -/
def votePostPoll (s : DB) (requesterId postId pollId choiceId newVoteId : Nat) :
    (Option Bool × Option String) × DB :=
  match s.postPolls.find? (fun pl => decide (pl.id = pollId) && decide (pl.postId = postId)) with
  | none => ((none, some "Poll not found."), s)
  | some poll =>
    if !(getBlockedUserIds s (pollPostAuthorIds s poll) requesterId).isEmpty then
      ((none, some "You have been blocked by this user!"), s)
    else if (s.pollChoices.find? fun c =>
        decide (c.id = choiceId) && decide (c.pollId = pollId)).isNone then
      ((none, some "Poll not found."), s)
    else if s.pollVotes.any (fun v => decide (v.userId = requesterId) && decide (v.pollId = pollId)) then
      ((none, some "Already voted."), s)
    else
      ((some true, none),
        { s with pollVotes :=
            { id := newVoteId, userId := requesterId, pollId := pollId,
              pollChoiceId := choiceId } :: s.pollVotes })

/-- The notification rows matching a dedup tuple, counted. -/
def notifCount (s : DB) (opts : NotifyOpts) (t : Nat) : Nat :=
  s.postNotifications.countP (notifMatches opts t)

/-- The unread counter of user `t`'s account (0 when the account row is
absent). -/
def acctCount (s : DB) (t : Nat) : Nat :=
  match s.accounts.find? (fun a => decide (a.userId = t)) with
  | some a => a.postNotificationCount
  | none => 0

/-- Modelled from the spec (§4.3, amended): the list-level redaction
algorithm over a `commentTo` chain, own record first — replace the head by
its minimal placeholder, keep recursing while the next ancestor's author is
blocked relative to the requester, and pass the remaining ancestors through
unredacted.  Used as the specification the recursive
`constructBlockedPostTemplate` is compared against. -/
def redactChainFromSpec (s : DB) (requesterUserId : Nat) : List PostCore → List PostCore
  | [] => []
  | [c] => [blockedPlaceholderCore c]
  | c :: p :: ps =>
    if isUserBlocked s requesterUserId p.createdById then
      blockedPlaceholderCore c :: redactChainFromSpec s requesterUserId (p :: ps)
    else
      blockedPlaceholderCore c :: p :: ps

theorem mem_insertKeyDesc {key : α → Nat} {x a : α} {l : List α} :
    a ∈ insertKeyDesc key x l ↔ a = x ∨ a ∈ l := by
  induction l with
  | nil => simp [insertKeyDesc]
  | cons y l ih =>
    rw [insertKeyDesc]
    by_cases h : key x ≤ key y
    · rw [if_pos h]
      simp only [List.mem_cons, ih]
      tauto
    · rw [if_neg h]
      simp only [List.mem_cons]

theorem mem_sortKeyDesc {key : α → Nat} {a : α} {l : List α} :
    a ∈ sortKeyDesc key l ↔ a ∈ l := by
  induction l with
  | nil => simp [sortKeyDesc]
  | cons x l ih =>
    rw [sortKeyDesc, mem_insertKeyDesc]
    simp [ih]

theorem pairwise_insertKeyDesc {key : α → Nat} {x : α} {l : List α}
    (h : l.Pairwise fun a b => key b ≤ key a) :
    (insertKeyDesc key x l).Pairwise fun a b => key b ≤ key a := by
  induction l with
  | nil => simp [insertKeyDesc]
  | cons y l ih =>
    rw [List.pairwise_cons] at h
    obtain ⟨hy, hl⟩ := h
    rw [insertKeyDesc]
    by_cases hxy : key x ≤ key y
    · rw [if_pos hxy, List.pairwise_cons]
      refine ⟨fun b hb => ?_, ih hl⟩
      rcases mem_insertKeyDesc.1 hb with rfl | hbl
      · exact hxy
      · exact hy b hbl
    · rw [if_neg hxy, List.pairwise_cons]
      push_neg at hxy
      refine ⟨fun b hb => ?_, List.pairwise_cons.2 ⟨hy, hl⟩⟩
      rcases List.mem_cons.1 hb with rfl | hbl
      · exact Nat.le_of_lt hxy
      · exact Nat.le_trans (hy b hbl) (Nat.le_of_lt hxy)

theorem pairwise_sortKeyDesc (key : α → Nat) (l : List α) :
    (sortKeyDesc key l).Pairwise fun a b => key b ≤ key a := by
  induction l with
  | nil => simp [sortKeyDesc]
  | cons x l ih =>
    rw [sortKeyDesc]
    exact pairwise_insertKeyDesc ih

theorem clampLimit_le_30 (x : Option Nat) : clampLimit x ≤ 30 := by
  rcases x with _ | l
  · exact Nat.le_refl 30
  · simp only [clampLimit]
    split_ifs <;> omega

theorem clampLimit_of_pos {L : Nat} (h : 1 ≤ L) : clampLimit (some L) = min L 30 := by
  simp only [clampLimit]
  rw [Nat.min_def]
  split_ifs <;> omega

theorem length_fetchPosts_le (s : DB) (opts : FetchPostsOpts) :
    (fetchPosts s opts).length ≤ clampLimit opts.limit := by
  unfold fetchPosts
  rw [List.length_reverse, List.length_take]
  exact Nat.min_le_left _ _

theorem length_getFeed_le (s : DB) (opts : GetFeedOpts) :
    (getFeed s opts).length ≤ clampLimit opts.limit := by
  unfold getFeed
  rw [List.length_take]
  exact Nat.min_le_left _ _

/-- State used to refute C2: user 2 has liked 31 distinct posts, nobody is
blocked. -/
def c2DB : DB :=
  { posts := (List.range 31).map fun i => { id := i + 1, createdById := 100, createdAt := i + 1 }
    postLikes := (List.range 31).map fun i =>
      { id := 1000 + i, likedById := 2, postId := i + 1, createdAt := i + 1 } }

/-- C2 counterexample: `fetchLikedPosts` is one of the claim's paginated
read operations, yet it returns 31 posts here — more than the hard ceiling
of 30 the claim asserts for every paginated read (its `take` is a fixed
50 and it has no limit parameter at all). -/
theorem c2_counterexample :
    30 < (fetchLikedPosts c2DB { userId := 2, requesterUserId := 2 }).length := by decide

/-- C2 (amended): `fetchPosts` and `getFeed` return at most `min L 30`
posts for any caller-supplied limit `L ≥ 1`, and never more than 30 posts
regardless of the limit option (an absent or zero limit defaults to 30);
`fetchLikedPosts`, by contrast, has no limit parameter and is bounded only
by its fixed `take` of 50. -/
theorem c2_page_size_ceiling :
    (∀ (s : DB) (opts : FetchPostsOpts) (L : Nat), opts.limit = some L → 1 ≤ L →
      (fetchPosts s opts).length ≤ min L 30) ∧
    (∀ (s : DB) (opts : GetFeedOpts) (L : Nat), opts.limit = some L → 1 ≤ L →
      (getFeed s opts).length ≤ min L 30) ∧
    (∀ (s : DB) (opts : FetchPostsOpts), (fetchPosts s opts).length ≤ 30) ∧
    (∀ (s : DB) (opts : GetFeedOpts), (getFeed s opts).length ≤ 30) ∧
    (∀ (s : DB) (opts : FetchLikedPostsOpts), (fetchLikedPosts s opts).length ≤ 50) := by
  refine ⟨?_, ?_, ?_, ?_, ?_⟩
  · intro s opts L hL hpos
    have h := length_fetchPosts_le s opts
    rwa [hL, clampLimit_of_pos hpos] at h
  · intro s opts L hL hpos
    have h := length_getFeed_le s opts
    rwa [hL, clampLimit_of_pos hpos] at h
  · intro s opts
    exact Nat.le_trans (length_fetchPosts_le s opts) (clampLimit_le_30 _)
  · intro s opts
    exact Nat.le_trans (length_getFeed_le s opts) (clampLimit_le_30 _)
  · intro s opts
    unfold fetchLikedPosts
    rw [List.length_reverse]
    refine Nat.le_trans (List.length_filterMap_le _ _) ?_
    unfold likedPostsSelection
    rw [List.length_take]
    exact Nat.min_le_left _ _

/-- Tiny state for instantiating the amended C2 theorem. -/
def w2DB : DB := { posts := [{ id := 1, createdById := 1, createdAt := 1 }] }

/-- C2 witness: the amended ceiling evaluated at a concrete store and a
concrete limit of 5. -/
theorem c2_witness :
    (fetchPosts w2DB { requesterUserId := 1, limit := some 5 }).length ≤ min 5 30 :=
  c2_page_size_ceiling.1 w2DB { requesterUserId := 1, limit := some 5 } 5 rfl (by decide)

/-- State used to refute C8: viewer 1's own two posts, created at times 1
and 2. -/
def c8DB : DB :=
  { posts := [{ id := 1, createdById := 1, createdAt := 1 },
              { id := 2, createdById := 1, createdAt := 2 }] }

/-- C8 counterexample: `getFeed` is one of the claim's paginated reads, yet
its returned page is not oldest-first — the source never reverses the
descending selection for the feed. -/
theorem c8_counterexample :
    ¬ List.Pairwise (fun a b : Post => a.createdAt ≤ b.createdAt)
      (getFeed c8DB { userId := 1 }) := by decide

/-- C8 (amended): `fetchPosts` selects newest-first internally and reverses
the page, so the caller receives it oldest-first; `fetchLikedPosts` likewise
returns the reverse of a newest-first (by like time) selection; `getFeed`,
however, returns its newest-first page without reversing. -/
theorem c8_page_order :
    (∀ (s : DB) (opts : FetchPostsOpts),
      List.Pairwise (fun a b : Post => a.createdAt ≤ b.createdAt) (fetchPosts s opts)) ∧
    (∀ (s : DB) (opts : GetFeedOpts),
      List.Pairwise (fun a b : Post => b.createdAt ≤ a.createdAt) (getFeed s opts)) ∧
    (∀ (s : DB) (opts : FetchLikedPostsOpts), ∃ ls : List PostLike,
      List.Pairwise (fun a b : PostLike => b.createdAt ≤ a.createdAt) ls ∧
      fetchLikedPosts s opts =
        (ls.filterMap fun l => s.posts.find? fun p => decide (p.id = l.postId)).reverse) := by
  refine ⟨?_, ?_, ?_⟩
  · intro s opts
    unfold fetchPosts
    rw [List.pairwise_reverse]
    exact ((pairwise_sortKeyDesc (fun p : Post => p.createdAt) _).sublist
      (List.take_sublist _ _))
  · intro s opts
    unfold getFeed
    exact ((pairwise_sortKeyDesc (fun p : Post => p.createdAt) _).sublist
      (List.take_sublist _ _))
  · intro s opts
    refine ⟨likedPostsSelection s opts, ?_, rfl⟩
    unfold likedPostsSelection
    exact ((pairwise_sortKeyDesc (fun l : PostLike => l.createdAt) _).sublist
      (List.take_sublist _ _))

/-- Every post returned by `fetchPosts` satisfies the built `where`
predicate. -/
theorem postWhere_of_mem_fetchPosts {s : DB} {opts : FetchPostsOpts} {p : Post}
    (hmem : p ∈ fetchPosts s opts) : postWhere s opts p = true := by
  unfold fetchPosts at hmem
  rw [List.mem_reverse] at hmem
  have hmem2 := List.mem_of_mem_take hmem
  rw [mem_sortKeyDesc] at hmem2
  exact (List.mem_filter.1 hmem2).2

/-- Without bypass, the `where` predicate rejects authors who blocked the
requester, and — only under `hideIfBlockedByMe` — authors the requester
blocked. -/
theorem postWhere_block_conditions {s : DB} {opts : FetchPostsOpts} {p : Post}
    (hbyp : opts.bypassBlocked = false) (hw : postWhere s opts p = true) :
    hasBlockedRow s p.createdById opts.requesterUserId = false ∧
      (opts.hideIfBlockedByMe = true →
        hasBlockedRow s opts.requesterUserId p.createdById = false) := by
  unfold postWhere at hw
  rw [hbyp] at hw
  cases hh : opts.hideIfBlockedByMe
  · rw [hh] at hw
    simp only [Bool.and_eq_true, Bool.false_eq_true, if_false, Bool.not_eq_true',
      true_and] at hw
    refine ⟨hw.1.2, ?_⟩
    intro habs
    exact absurd habs (by simp [hh])
  · rw [hh] at hw
    simp only [Bool.and_eq_true, Bool.false_eq_true, if_false, if_true,
      Bool.not_eq_true'] at hw
    exact ⟨hw.1.2.2, fun _ => hw.1.2.1⟩

/-- State used to refute C3: author 1 has blocked viewer 2; viewer 2
follows author 1. -/
def c3DB : DB :=
  { posts := [{ id := 1, createdById := 1, createdAt := 1 }]
    friends := [{ userId := 1, recipientId := 2, status := FriendStatus.blocked }]
    follows := [{ followedById := 2, followedToId := 1 }] }

/-- C3 counterexample: a block relation exists from the post's author
toward the viewer, yet the default-visibility paginated read `getFeed`
still returns the author's post — `getFeed` builds no block condition at
all. -/
theorem c3_counterexample :
    hasBlockedRow c3DB 1 2 = true ∧
      (getFeed c3DB { userId := 2 }).map (fun p => p.id) = [1] := by decide

/-- C3 (amended): for `fetchPosts` with the default (non-bypass)
visibility, a returned post's author never has a block row against the
requester; a block row by the requester against the author excludes the
post only when `hideIfBlockedByMe` is set; and `getFeed` consults no block
relation at all — its result is unchanged under arbitrary replacement of
the friends table. -/
theorem c3_block_filtering :
    (∀ (s : DB) (opts : FetchPostsOpts) (p : Post), opts.bypassBlocked = false →
      p ∈ fetchPosts s opts →
      hasBlockedRow s p.createdById opts.requesterUserId = false ∧
        (opts.hideIfBlockedByMe = true →
          hasBlockedRow s opts.requesterUserId p.createdById = false)) ∧
    (∀ (s : DB) (opts : GetFeedOpts) (fr : List Friend),
      getFeed { s with friends := fr } opts = getFeed s opts) := by
  constructor
  · intro s opts p hbyp hmem
    exact postWhere_block_conditions hbyp (postWhere_of_mem_fetchPosts hmem)
  · intro s opts fr
    rfl

/-- State for instantiating the amended C3 theorem: author 3's post is
visible to requester 4, and indeed no block row exists. -/
def w3DB : DB := { posts := [{ id := 1, createdById := 3, createdAt := 1 }] }

/-- C3 witness: the amended block-filtering theorem evaluated at a
concrete store. -/
theorem c3_witness : hasBlockedRow w3DB 3 4 = false :=
  (c3_block_filtering.1 w3DB { requesterUserId := 4 }
    { id := 1, createdById := 3, createdAt := 1 } rfl (by decide)).1

/-- The template's own record is always the placeholder of the input's own
record, bypass or not. -/
theorem core_constructBlockedPostTemplate (s : DB) (r : Nat) (b : Bool) (t : PostTree) :
    (constructBlockedPostTemplate s r b t).core = blockedPlaceholderCore t.core := by
  cases t with
  | leaf c => rfl
  | node c ct =>
    unfold constructBlockedPostTemplate
    split <;> rfl

/-- The assembled tree's own record is the assembled record of the post
row. -/
theorem core_assemblePostTree (s : DB) (p : Post) :
    (assemblePostTree s p).core = assembleCore s p := by
  unfold assemblePostTree
  split
  · rfl
  · split <;> rfl

/-- Refinement of the recursive template against the spec's list-level
chain-walk: without bypass, the `commentTo` chain of the template is
exactly the spec's redaction of the input chain — the head placeholdered,
consecutively blocked ancestors placeholdered, and the rest passed through
unredacted. -/
theorem chain_constructBlockedPostTemplate (s : DB) (ruid : Nat) (t : PostTree) :
    (constructBlockedPostTemplate s ruid false t).chain =
      redactChainFromSpec s ruid t.chain := by
  induction t with
  | leaf c => rfl
  | node c ct ih =>
    cases ct with
    | leaf c2 =>
      cases hb : isUserBlocked s ruid c2.createdById <;>
        simp [constructBlockedPostTemplate, PostTree.chain, PostTree.core,
          redactChainFromSpec, hb]
    | node c2 ct2 =>
      cases hb : isUserBlocked s ruid c2.createdById <;>
        simp_all [constructBlockedPostTemplate, PostTree.chain, PostTree.core,
          redactChainFromSpec, hb]

/-- State used to refute C4: post 1 of author 1 quotes post 9, and author 1
has blocked viewer 2. -/
def c4DB : DB :=
  { posts := [{ id := 1, createdById := 1, createdAt := 1, quotedPostId := some 9,
                content := some "hi" }]
    friends := [{ userId := 1, recipientId := 2, status := FriendStatus.blocked }] }

/-- C4 counterexample: the placeholder returned by `fetchPost` for a
blocked author carries `block = true` but still retains the quoted-post
identifier — a fifth retained field beyond the claim's "retaining only the
identifier, parent link, author reference and blocked marker". -/
theorem c4_counterexample :
    (fetchPost c4DB { postId := 1, requesterUserId := 2 }).map
        (fun t => (t.core.block, t.core.quotedPostId)) = some (true, some 9) := by decide

/-- C4 (amended): when `fetchPost` finds the post, bypass is not requested
and the author is blocked relative to the requester, the result is the
blocked-post template: its own record is the minimal placeholder of the
assembled record — identifier, parent-link identifier, author reference
and quoted-post identifier retained, `blocked = true` set, content, like
count, attachments and poll dropped — and its whole `commentTo` chain
equals the spec's chain walk, which placeholders each consecutively
blocked ancestor and stops at an ancestor that is absent or not blocked,
passing unblocked ancestors through unredacted. -/
theorem c4_blocked_redaction (s : DB) (opts : FetchPostOpts) (post : Post)
    (hfind : s.posts.find? (fun p => decide (p.id = opts.postId)) = some post)
    (hbyp : opts.bypassBlocked = false)
    (hb : isUserBlocked s opts.requesterUserId post.createdById = true) :
    (fetchPost s opts).map PostTree.chain =
      some (redactChainFromSpec s opts.requesterUserId (assemblePostTree s post).chain) ∧
    (fetchPost s opts).map PostTree.core =
      some (blockedPlaceholderCore (assembleCore s post)) := by
  have hres : fetchPost s opts =
      some (constructBlockedPostTemplate s opts.requesterUserId opts.bypassBlocked
        (assemblePostTree s post)) := by
    unfold fetchPost
    rw [hfind]
    simp [hbyp, hb]
  rw [hres, hbyp]
  constructor
  · simp only [Option.map]
    rw [chain_constructBlockedPostTemplate]
  · simp only [Option.map]
    rw [core_constructBlockedPostTemplate, core_assemblePostTree]

/-- State for instantiating the amended C4 theorem: post 2 (author 1,
blocked relative to viewer 5) is a comment to post 1 (author 3, not
blocked). -/
def w4DB : DB :=
  { posts := [{ id := 2, createdById := 1, createdAt := 2, commentToId := some 1 },
              { id := 1, createdById := 3, createdAt := 1, content := some "parent" }]
    friends := [{ userId := 1, recipientId := 5, status := FriendStatus.blocked }] }

/-- C4 witness: the amended redaction theorem evaluated at a concrete
store with a blocked reply to an unblocked parent. -/
theorem c4_witness :
    (fetchPost w4DB { postId := 2, requesterUserId := 5 }).map PostTree.chain =
      some (redactChainFromSpec w4DB 5
        (assemblePostTree w4DB
          { id := 2, createdById := 1, createdAt := 2, commentToId := some 1 }).chain) :=
  (c4_blocked_redaction w4DB { postId := 2, requesterUserId := 5 }
    { id := 2, createdById := 1, createdAt := 2, commentToId := some 1 }
    (by decide) rfl (by decide)).1

/-- State used to refute C5: user 2 has already voted in poll 10, and the
poll's post author (user 1) has also blocked user 2. -/
def c5DB : DB :=
  { posts := [{ id := 1, createdById := 1, createdAt := 1 }]
    postPolls := [{ id := 10, postId := 1 }]
    pollChoices := [{ id := 100, pollId := 10 }]
    pollVotes := [{ id := 7, userId := 2, pollId := 10, pollChoiceId := 100 }]
    friends := [{ userId := 1, recipientId := 2, status := FriendStatus.blocked }] }

/-- C5 counterexample: a second vote call with the same (viewer, poll) does
not always return the already-voted error — the block check runs first, so
it returns the blocked error here even though the vote row exists. -/
theorem c5_counterexample :
    c5DB.pollVotes.any (fun v => decide (v.userId = 2) && decide (v.pollId = 10)) = true ∧
      (votePostPoll c5DB 2 1 10 100 55).1.2 = some "You have been blocked by this user!" := by
  decide

/-- C5 (amended): any vote call that returns an error leaves the state
unchanged; a successful call's only mutation is the insert of the single
vote row; and a second vote call with the same (viewer, poll) performs no
mutation and returns the already-voted error provided the earlier
preconditions still pass — the poll still exists for the post, no block
relation exists between the viewer and the post's author, and the choice
belongs to the poll (otherwise the earlier precondition's error is
returned instead, still without mutation). -/
theorem c5_vote_preconditions (s : DB) (r postId pollId choiceId nid : Nat) :
    (∀ e : String, (votePostPoll s r postId pollId choiceId nid).1.2 = some e →
      (votePostPoll s r postId pollId choiceId nid).2 = s) ∧
    ((votePostPoll s r postId pollId choiceId nid).1.2 = none →
      (votePostPoll s r postId pollId choiceId nid).2 =
        { s with pollVotes :=
            { id := nid, userId := r, pollId := pollId, pollChoiceId := choiceId } ::
              s.pollVotes }) ∧
    (∀ poll : PostPoll,
      s.postPolls.find?
          (fun pl => decide (pl.id = pollId) && decide (pl.postId = postId)) = some poll →
      getBlockedUserIds s (pollPostAuthorIds s poll) r = [] →
      (s.pollChoices.find? fun c =>
        decide (c.id = choiceId) && decide (c.pollId = pollId)).isSome = true →
      s.pollVotes.any (fun v => decide (v.userId = r) && decide (v.pollId = pollId)) = true →
      votePostPoll s r postId pollId choiceId nid = ((none, some "Already voted."), s)) := by
  refine ⟨?_, ?_, ?_⟩
  · intro e he
    unfold votePostPoll at he ⊢
    generalize s.postPolls.find?
        (fun pl => decide (pl.id = pollId) && decide (pl.postId = postId)) = res at he ⊢
    cases res with
    | none => rfl
    | some poll =>
      simp only [] at he ⊢
      split_ifs at he ⊢ <;> simp_all
  · intro hok
    unfold votePostPoll at hok ⊢
    generalize s.postPolls.find?
        (fun pl => decide (pl.id = pollId) && decide (pl.postId = postId)) = res at hok ⊢
    cases res with
    | none => simp at hok
    | some poll =>
      simp only [] at hok ⊢
      split_ifs at hok ⊢
      simp_all
  · intro poll hp hb hc hv
    obtain ⟨ch, hch⟩ := Option.isSome_iff_exists.1 hc
    unfold votePostPoll
    simp only [hp, hb, hch]
    simp [hv]

/-- State for instantiating the amended C5 theorem: the vote row exists and
nobody is blocked, so the second call returns "Already voted." with no
mutation. -/
def w5DB : DB :=
  { posts := [{ id := 1, createdById := 1, createdAt := 1 }]
    postPolls := [{ id := 10, postId := 1 }]
    pollChoices := [{ id := 100, pollId := 10 }]
    pollVotes := [{ id := 7, userId := 2, pollId := 10, pollChoiceId := 100 }] }

/-- C5 witness: the amended vote theorem's already-voted clause evaluated
at a concrete store. -/
theorem c5_witness :
    votePostPoll w5DB 2 1 10 100 55 = ((none, some "Already voted."), w5DB) :=
  (c5_vote_preconditions w5DB 2 1 10 100 55).2.2 { id := 10, postId := 1 }
    (by decide) (by decide) (by decide) (by decide)

/-- State used to refute C1: user 1 is scheduled for content deletion and
owns post 1, which has `estimateLikes = 1`. -/
def c1DB : DB :=
  { posts := [{ id := 1, createdById := 1, createdAt := 5, content := some "hello",
                estimateLikes := 1 }]
    users := [{ id := 1, scheduledForContentDeletion := true }] }

/-- C1 counterexample: after the scheduled deletion sweep completes, a post
with `deleted = true` still has a non-zero `estimateLikes` — the sweep's
update sets only `content` and `deleted` and never resets the approximate
like counter. -/
theorem c1_counterexample :
    (scheduleDeleteAccountContentTick c1DB).posts.any
      (fun p => decide (p.deleted = some true) && !(decide (p.estimateLikes = 0))) = true := by
  decide

/-- C1 (amended): a successful `deletePost` leaves the target post with
null content, the soft-delete flag set and `estimateLikes = 0`, and
removes every like, poll and attachment row referencing it; the scheduled
deletion sweep likewise nulls the content, sets the flag and removes the
like, poll and attachment rows of every post it selects, but leaves each
such post's `estimateLikes` at its prior value. -/
theorem c1_soft_delete (s : DB) (postId userId : Nat) :
    (∀ post : Post,
      s.posts.find?
          (fun p => decide (p.id = postId) && decide (p.createdById = userId)) = some post →
      ((deletePost s postId userId).2.posts.all fun p =>
        !(decide (p.id = postId)) ||
          (decide (p.content = none) && decide (p.deleted = some true) &&
            decide (p.estimateLikes = 0))) = true ∧
      ((deletePost s postId userId).2.postLikes.all fun l => !(decide (l.postId = postId))) = true ∧
      ((deletePost s postId userId).2.postPolls.all fun pl => !(decide (pl.postId = postId))) = true ∧
      ((deletePost s postId userId).2.attachments.all fun a =>
        !(decide (a.postId = some postId))) = true) ∧
    (∀ pid : Nat, pid ∈ sweptPostIds s →
      ((scheduleDeleteAccountContentTick s).posts.all fun p =>
        !(decide (p.id = pid)) ||
          (decide (p.content = none) && decide (p.deleted = some true))) = true ∧
      ((scheduleDeleteAccountContentTick s).postLikes.all fun l =>
        !(decide (l.postId = pid))) = true ∧
      ((scheduleDeleteAccountContentTick s).postPolls.all fun pl =>
        !(decide (pl.postId = pid))) = true ∧
      ((scheduleDeleteAccountContentTick s).attachments.all fun a =>
        !(decide (a.postId = some pid))) = true ∧
      (∀ p ∈ (scheduleDeleteAccountContentTick s).posts, p.id = pid →
        ∃ p0 ∈ s.posts, p0.id = pid ∧ p0.estimateLikes = p.estimateLikes)) := by
  constructor
  · intro post hfind
    unfold deletePost
    generalize s.posts.find?
        (fun p => decide (p.id = postId) && decide (p.createdById = userId)) = res at hfind ⊢
    cases res with
    | none => cases hfind
    | some q =>
      simp only []
      refine ⟨?_, ?_, ?_, ?_⟩
      · rw [List.all_eq_true]
        intro p hp
        rw [List.mem_map] at hp
        obtain ⟨p0, hp0, hval⟩ := hp
        by_cases hid : p0.id = postId
        · rw [if_pos hid] at hval
          subst hval
          simp
        · rw [if_neg hid] at hval
          subst hval
          simp [hid]
      · rw [List.all_eq_true]
        intro l hl
        have := (List.mem_filter.1 hl).2
        simpa using this
      · rw [List.all_eq_true]
        intro pl hpl
        have := (List.mem_filter.1 hpl).2
        simpa using this
      · rw [List.all_eq_true]
        intro a ha
        have := (List.mem_filter.1 ha).2
        simpa using this
  · intro pid hpid
    unfold scheduleDeleteAccountContentTick
    have hpids : ¬(sweptPostIds s).isEmpty = true := by
      intro habs
      rw [List.isEmpty_iff] at habs
      rw [habs] at hpid
      cases hpid
    rw [if_neg hpids]
    refine ⟨?_, ?_, ?_, ?_, ?_⟩
    · rw [List.all_eq_true]
      intro p hp
      rw [List.mem_map] at hp
      obtain ⟨p0, hp0, hval⟩ := hp
      by_cases hid : p0.id ∈ sweptPostIds s
      · rw [if_pos hid] at hval
        subst hval
        simp
      · rw [if_neg hid] at hval
        subst hval
        have : p0.id ≠ pid := fun habs => hid (habs ▸ hpid)
        simp [this]
    · rw [List.all_eq_true]
      intro l hl
      have hcond := (List.mem_filter.1 hl).2
      rw [decide_eq_true_eq] at hcond
      simp only [Bool.not_eq_true', decide_eq_false_iff_not]
      intro habs
      exact hcond (habs ▸ hpid)
    · rw [List.all_eq_true]
      intro pl hpl
      have hcond := (List.mem_filter.1 hpl).2
      rw [decide_eq_true_eq] at hcond
      simp only [Bool.not_eq_true', decide_eq_false_iff_not]
      intro habs
      exact hcond (habs ▸ hpid)
    · rw [List.all_eq_true]
      intro a ha
      have hcond := (List.mem_filter.1 ha).2
      simp only [Bool.not_eq_true', decide_eq_false_iff_not]
      intro habs
      rw [habs] at hcond
      rw [decide_eq_true_eq] at hcond
      exact hcond hpid
    · intro p hp hid
      rw [List.mem_map] at hp
      obtain ⟨p0, hp0, hval⟩ := hp
      refine ⟨p0, hp0, ?_, ?_⟩
      · by_cases hin : p0.id ∈ sweptPostIds s
        · rw [if_pos hin] at hval
          rw [← hval] at hid
          exact hid
        · rw [if_neg hin] at hval
          rw [← hval] at hid
          exact hid
      · by_cases hin : p0.id ∈ sweptPostIds s
        · rw [if_pos hin] at hval
          rw [← hval]
        · rw [if_neg hin] at hval
          rw [← hval]

/-- State for instantiating the amended C1 theorem: post 1 of user 1 with
a like, a poll and an attachment row. -/
def w1DB : DB :=
  { posts := [{ id := 1, createdById := 1, createdAt := 1, content := some "x",
                estimateLikes := 1 }]
    postLikes := [{ id := 20, likedById := 2, postId := 1, createdAt := 3 }]
    postPolls := [{ id := 30, postId := 1 }]
    attachments := [{ id := 40, postId := some 1 }] }

/-- C1 witness: the amended soft-delete theorem's `deletePost` clause
evaluated at a concrete store. -/
theorem c1_witness :
    ((deletePost w1DB 1 1).2.postLikes.all fun l => !(decide (l.postId = 1))) = true :=
  ((c1_soft_delete w1DB 1 1).1
    { id := 1, createdById := 1, createdAt := 1, content := some "x", estimateLikes := 1 }
    (by decide)).2.1

/-- State exhibiting the C9 divergence: post 1 exists and user 2 may like
it; the like-row insert is the storage write that fails. -/
def c9DB : DB := { posts := [{ id := 1, createdById := 1, createdAt := 1 }] }

/-- C9: `likePost` evaluated at the failing input — all three precondition
reads pass, the `estimateLikes` increment is applied, then the like-row
insert fails; the call returns the transient error yet the post's
approximate like counter is left at 1, not its prior 0: the increment and
the insert are not one atomic unit, so an erroring call has mutated
persistent state. -/
theorem c9_like_insert_failure :
    (likePost c9DB 2 1 false 50 60 5).1.2 = some "Something went wrong! Try again later." ∧
      ((likePost c9DB 2 1 false 50 60 5).2.posts.map fun p => p.estimateLikes) = [1] := by
  decide

/-- C10: a direct `fetchPost` applies no soft-delete filter, so a
soft-deleted post (whose content the deletion pathways have nulled) is
still returned — with its identifier and null content — for any requester
and bypass setting, whereas `editPost`, `likePost` and `getPostLikes` all
filter on `deleted = null` and report the post as not found, leaving the
state unchanged. -/
theorem c10_deleted_post_visibility (s : DB) (pid : Nat) (p : Post)
    (hp : p ∈ s.posts) (hpid : p.id = pid)
    (huniq : ∀ q ∈ s.posts, q.id = pid → q = p)
    (hdel : p.deleted = some true) (hcontent : p.content = none) :
    (∀ (r : Nat) (b : Bool), ∃ t : PostTree,
      fetchPost s { postId := pid, requesterUserId := r, bypassBlocked := b } = some t ∧
        t.core.id = pid ∧ t.core.content = none) ∧
    (∀ (uid : Nat) (content : String) (ok : Bool),
      editPost s uid pid content ok = ((none, some "Post not found"), s)) ∧
    (∀ (uid : Nat) (iok : Bool) (a b c : Nat),
      likePost s uid pid iok a b c = ((none, some "Post not found"), s)) ∧
    getPostLikes s pid = (none, some "Post not found") := by
  have hfind : s.posts.find? (fun q => decide (q.id = pid)) = some p := by
    cases hf : s.posts.find? (fun q => decide (q.id = pid)) with
    | none =>
      have hnone := List.find?_eq_none.1 hf p hp
      simp [hpid] at hnone
    | some q =>
      have hqmem := List.mem_of_find?_eq_some hf
      have hqpred := List.find?_some hf
      rw [decide_eq_true_eq] at hqpred
      rw [huniq q hqmem hqpred]
  refine ⟨?_, ?_, ?_, ?_⟩
  · intro r b
    dsimp only [fetchPost]
    rw [hfind]
    simp only []
    by_cases hblk : (!b && isUserBlocked s r p.createdById) = true
    · rw [if_pos hblk]
      refine ⟨_, rfl, ?_, ?_⟩
      · rw [core_constructBlockedPostTemplate, core_assemblePostTree]
        simp [blockedPlaceholderCore, assembleCore, hpid]
      · rw [core_constructBlockedPostTemplate]
        simp [blockedPlaceholderCore]
    · rw [if_neg hblk]
      refine ⟨_, rfl, ?_, ?_⟩
      · rw [core_assemblePostTree]
        simp [assembleCore, hpid]
      · rw [core_assemblePostTree]
        simp [assembleCore, hcontent]
  · intro uid content ok
    unfold editPost
    have hnone : s.posts.find? (fun q =>
        decide (q.createdById = uid) && decide (q.deleted = none) &&
          decide (q.id = pid)) = none := by
      rw [List.find?_eq_none]
      intro q hq hpred
      simp only [Bool.and_eq_true, decide_eq_true_eq] at hpred
      rw [huniq q hq hpred.2] at hpred
      rw [hdel] at hpred
      exact Option.noConfusion hpred.1.2
    rw [hnone]
  · intro uid iok a b c
    unfold likePost
    have hnone : s.posts.find? (fun q =>
        decide (q.deleted = none) && decide (q.id = pid)) = none := by
      rw [List.find?_eq_none]
      intro q hq hpred
      simp only [Bool.and_eq_true, decide_eq_true_eq] at hpred
      rw [huniq q hq hpred.2] at hpred
      rw [hdel] at hpred
      exact Option.noConfusion hpred.1
    rw [hnone]
  · unfold getPostLikes
    have hnone : s.posts.find? (fun q =>
        decide (q.deleted = none) && decide (q.id = pid)) = none := by
      rw [List.find?_eq_none]
      intro q hq hpred
      simp only [Bool.and_eq_true, decide_eq_true_eq] at hpred
      rw [huniq q hq hpred.2] at hpred
      rw [hdel] at hpred
      exact Option.noConfusion hpred.1
    rw [hnone]

/-- State for instantiating C10: post 1 is soft-deleted with null
content. -/
def w10DB : DB :=
  { posts := [{ id := 1, createdById := 1, createdAt := 1, deleted := some true }] }

/-- C10 witness: the deleted-post visibility theorem evaluated at a
concrete store. -/
theorem c10_witness :
    getPostLikes w10DB 1 = (none, some "Post not found") :=
  (c10_deleted_post_visibility w10DB 1
    { id := 1, createdById := 1, createdAt := 1, deleted := some true }
    (by decide) rfl (by decide) rfl rfl).2.2.2

/-- `createPostNotification` never changes the posts table. -/
theorem posts_createPostNotification (s : DB) (o : NotifyOpts) (n : Nat) :
    (createPostNotification s o n).posts = s.posts := by
  unfold createPostNotification
  generalize resolveToId s.posts o = res
  cases res with
  | none => rfl
  | some t =>
    simp only []
    split_ifs <;> rfl

/-- Looking an account up by user id commutes with the counter-bump map,
because the bump preserves the user id. -/
theorem find_userId_map_bump (l : List Account) (t : Nat) :
    ((l.map fun a =>
        if a.userId = t then { a with postNotificationCount := a.postNotificationCount + 1 }
        else a).find? fun a => decide (a.userId = t)) =
      (l.find? fun a => decide (a.userId = t)).map fun a =>
        { a with postNotificationCount := a.postNotificationCount + 1 } := by
  induction l with
  | nil => rfl
  | cons a l ih =>
    by_cases h : a.userId = t
    · simp [List.find?, h, ih]
    · simp [List.find?, h, ih]

/-- The notification row `createPostNotification` inserts for resolved
recipient `t`. -/
def newNotifRow (opts : NotifyOpts) (t nid : Nat) : PostNotification :=
  { id := nid, byId := opts.byId, toId := t, ntype := opts.ntype, postId := opts.postId }

/-- The counter bump applied to the recipient's account row. -/
def bumpAccount (t : Nat) (a : Account) : Account :=
  if a.userId = t then { a with postNotificationCount := a.postNotificationCount + 1 } else a

/-- The inserted row always matches its own dedup tuple. -/
theorem notifMatches_newNotifRow (opts : NotifyOpts) (t nid : Nat) :
    notifMatches opts t (newNotifRow opts t nid) = true := by
  simp [notifMatches, newNotifRow]

/-- C6: for a resolved recipient `t`, self-notification (`t = byId`) is a
no-op; otherwise, when the recipient's account exists and no row with the
dedup tuple exists yet, calling notify twice with identical arguments
leaves exactly one matching row, increments the recipient's counter
exactly once, and makes the second call a no-op skip. -/
theorem c6_notification_dedup (s : DB) (opts : NotifyOpts) (nid1 nid2 t : Nat)
    (hres : resolveToId s.posts opts = some t) :
    (t = opts.byId → createPostNotification s opts nid1 = s) ∧
    (t ≠ opts.byId → accountExists s t = true → notifCount s opts t = 0 →
      createPostNotification (createPostNotification s opts nid1) opts nid2 =
          createPostNotification s opts nid1 ∧
        notifCount (createPostNotification s opts nid1) opts t = 1 ∧
        acctCount (createPostNotification s opts nid1) t = acctCount s t + 1) := by
  constructor
  · intro heq
    unfold createPostNotification
    rw [hres]
    simp [heq]
  · intro hne hacct hcount
    have hany : s.postNotifications.any (notifMatches opts t) = false := by
      rw [List.any_eq_false]
      intro x hx
      exact (List.countP_eq_zero.1 hcount) x hx
    have hs1 : createPostNotification s opts nid1 =
        { s with
          postNotifications := newNotifRow opts t nid1 :: s.postNotifications
          accounts := s.accounts.map (bumpAccount t) } := by
      unfold createPostNotification
      rw [hres]
      simp only []
      rw [if_neg hne, hany]
      simp [hacct, newNotifRow, bumpAccount]
    refine ⟨?_, ?_, ?_⟩
    · have hres1 : resolveToId (createPostNotification s opts nid1).posts opts = some t := by
        rw [posts_createPostNotification]
        exact hres
      rw [hs1] at hres1 ⊢
      unfold createPostNotification
      simp only [hres1]
      rw [if_neg hne]
      have hany2 : (newNotifRow opts t nid1 :: s.postNotifications).any
          (notifMatches opts t) = true := by
        rw [List.any_cons, notifMatches_newNotifRow]
        rfl
      rw [hany2]
      rfl
    · rw [hs1]
      unfold notifCount at hcount ⊢
      dsimp only []
      rw [List.countP_cons, hcount, notifMatches_newNotifRow]
      rfl
    · rw [hs1]
      unfold acctCount
      dsimp only []
      unfold bumpAccount
      rw [find_userId_map_bump]
      cases hfa : s.accounts.find? (fun a => decide (a.userId = t)) with
      | none =>
        exfalso
        unfold accountExists at hacct
        rw [List.any_eq_true] at hacct
        obtain ⟨a, ha, hpa⟩ := hacct
        exact (List.find?_eq_none.1 hfa a ha) hpa
      | some a => simp

/-- State for instantiating C6: recipient 3 has an account with a zero
counter; the notification is an explicit-recipient `followed` one from
actor 2. -/
def w6DB : DB := { accounts := [{ userId := 3 }] }

/-- The notify arguments used by the C6 witness. -/
def w6opts : NotifyOpts := { toId := some 3, byId := 2, ntype := PostNotificationType.followed }

/-- C6 witness: the dedup theorem evaluated at a concrete store — two
identical notify calls create one row, bump the counter once, and the
second call is a no-op. -/
theorem c6_witness :
    createPostNotification (createPostNotification w6DB w6opts 11) w6opts 12 =
        createPostNotification w6DB w6opts 11 ∧
      notifCount (createPostNotification w6DB w6opts 11) w6opts 3 = 1 ∧
      acctCount (createPostNotification w6DB w6opts 11) 3 = acctCount w6DB 3 + 1 :=
  (c6_notification_dedup w6DB w6opts 11 12 3 rfl).2 (by decide) (by decide) (by decide)

/-- C7: when the resolved recipient is absent the call creates nothing;
for type `replied` the recipient is the author of the subject post's
`commentTo` parent — a missing subject or a subject with no parent means no
notification; for type `liked` the recipient is the subject post's author;
for type `followed` the explicitly supplied recipient is used. -/
theorem c7_replied_recipient (s : DB) (opts : NotifyOpts) (nid : Nat) :
    (resolveToId s.posts opts = none → createPostNotification s opts nid = s) ∧
    (opts.ntype = PostNotificationType.replied →
      (∀ pid, opts.postId = some pid →
        s.posts.find? (fun p => decide (p.id = pid)) = none →
        createPostNotification s opts nid = s) ∧
      (∀ p : Post, findSubjectPost s.posts opts.postId = some p → p.commentToId = none →
        resolveToId s.posts opts = none) ∧
      (∀ (p : Post) (cid : Nat) (q : Post),
        findSubjectPost s.posts opts.postId = some p →
        p.commentToId = some cid →
        s.posts.find? (fun q2 => decide (q2.id = cid)) = some q →
        resolveToId s.posts opts = some q.createdById)) ∧
    (opts.ntype = PostNotificationType.liked →
      ∀ p : Post, findSubjectPost s.posts opts.postId = some p →
        resolveToId s.posts opts = some p.createdById) ∧
    (opts.ntype = PostNotificationType.followed → resolveToId s.posts opts = opts.toId) := by
  refine ⟨?_, ?_, ?_, ?_⟩
  · intro h
    unfold createPostNotification
    rw [h]
  · intro htype
    refine ⟨?_, ?_, ?_⟩
    · intro pid hpid hfind
      have hres : resolveToId s.posts opts = none := by
        simp [resolveToId, findSubjectPost, htype, hpid, hfind]
      unfold createPostNotification
      rw [hres]
    · intro p hfp hct
      simp [resolveToId, htype, hfp, hct]
    · intro p cid q hfp hct hfq
      simp [resolveToId, htype, hfp, hct, hfq]
  · intro htype p hfp
    simp [resolveToId, htype, hfp]
  · intro htype
    simp [resolveToId, htype]

/-- State for instantiating C7: post 2 (author 2) is a reply to post 1
(author 3). -/
def w7DB : DB :=
  { posts := [{ id := 2, createdById := 2, createdAt := 2, commentToId := some 1 },
              { id := 1, createdById := 3, createdAt := 1 }] }

/-- The notify arguments used by the C7 witness: a `replied` notification
whose subject is reply 2. -/
def w7opts : NotifyOpts := { byId := 2, postId := some 2, ntype := PostNotificationType.replied }

/-- C7 witness: the recipient of the `replied` notification resolves to the
parent post's author (user 3), not the reply's own author (user 2). -/
theorem c7_witness : resolveToId w7DB.posts w7opts = some 3 :=
  ((c7_replied_recipient w7DB w7opts 0).2.1 rfl).2.2
    { id := 2, createdById := 2, createdAt := 2, commentToId := some 1 } 1
    { id := 1, createdById := 3, createdAt := 1 } (by decide) rfl (by decide)

end Nerimity
